import Mathlib

/-!
Verification development for the MCP-Developer-SubAgent repository.

The file shallowly embeds the parts of the code base that the checked
properties are about:

* `src/claude_code_sdk/rate_limiter.py` — the sliding-window rate limiter
  (`RateLimiter.check_rate_limit`, `RateLimiter.record_request`,
  `RateLimiter._load_config`, the `rate_limited` decorator and the
  `RateLimitExceeded` exception);
* `src/claude_code_sdk/claude_integration.py` — the agent front end
  (`ClaudeCodeAgent.send_message`, `_single_response`, `_stream_response`);
* the activation aggregator (`analyze_activation_needs`), whose code is not
  part of the sources and is therefore modelled from the specification.

Conventions used throughout:

* Python `time.time()` values (floats) are modelled as rationals `ℚ`, so all
  comparisons are exact and decidable.
* Python `int` fields are modelled as `Int` (configuration values) or `Nat`
  (monotone counters).
* A Python function that can raise is modelled with `Except String α`; the
  `.error` constructor carries the exception text of an *uncaught* exception.
* An awaited call that may never complete is modelled with `AsyncOutcome`.
-/

/-! ## Rate limiter: data model (`rate_limiter.py`, `RateLimit` / `RateLimitState`) -/

/-- `RateLimit` dataclass: static configuration of one endpoint. -/
structure RateLimit where
  max_requests : Int := 60
  window_seconds : Int := 60
  burst_limit : Int := 10
  cooldown_seconds : Int := 300
  deriving Repr, DecidableEq

/-- `RateLimitState` dataclass: mutable per-endpoint tracking state.
The `requests` deque is kept as a list, appended on the right and popped
on the left exactly as the Python deque is used. -/
structure RateLimitState where
  requests : List ℚ := []
  burst_count : Int := 0
  last_request : ℚ := 0
  cooldown_until : ℚ := 0
  total_requests : Nat := 0
  total_blocked : Nat := 0
  deriving Repr, DecidableEq

/-- The decision dictionary returned by `check_rate_limit`. -/
structure Decision where
  allowed : Bool
  reason : String
  retry_after : Int
  remaining : Int
  reset_time : ℚ
  deriving Repr, DecidableEq

/-- The mutable state of a `RateLimiter` object: `self.limits` (a dict merged
from defaults and config) and `self.state` (a `defaultdict(RateLimitState)`,
modelled as a total function that returns the default state for absent keys). -/
structure Limiter where
  limits : String → Option RateLimit
  state : String → RateLimitState

/-- `self.limits.get(endpoint, self.limits["global"])`.  After `_load_config`
the `"global"` key is always present (the defaults contain it and loading only
adds or overrides keys), so the final `.getD {}` fallback is unreachable for
any limiter the constructor can produce. -/
def getLimit (L : Limiter) (endpoint : String) : RateLimit :=
  match L.limits endpoint with
  | some cfg => cfg
  | none => (L.limits "global").getD {}

/-- Write one endpoint's state (in Python this is an in-place mutation of the
`RateLimitState` object stored in the `defaultdict`). -/
def setState (L : Limiter) (endpoint : String) (st : RateLimitState) : Limiter :=
  { L with state := fun x => if x = endpoint then st else L.state x }

/-- Python `int(q)`: truncation toward zero. -/
def pyInt (q : ℚ) : Int :=
  if 0 ≤ q then ⌊q⌋ else ⌈q⌉

/-! ## Rate limiter: `check_rate_limit` (lines 110–191)

The per-endpoint body is split off as a pure function `checkCore` of the
current time, the endpoint's configuration and the endpoint's state; it
returns the decision together with the endpoint state as it stands after the
in-place mutations the Python code performs (window eviction, burst-counter
updates, cooldown activation). -/

/-- Lines 167–191: the sliding-window check and the allow path. -/
def windowCore (now : ℚ) (cfg : RateLimit) (st : RateLimitState) :
    Decision × RateLimitState :=
  if cfg.max_requests ≤ (st.requests.length : Int) then
    (⟨false, "rate_limit_exceeded", cfg.cooldown_seconds, 0,
       now + (cfg.cooldown_seconds : ℚ)⟩,
     { st with cooldown_until := now + (cfg.cooldown_seconds : ℚ),
               total_blocked := st.total_blocked + 1 })
  else
    (⟨true, "allowed", 0, cfg.max_requests - (st.requests.length : Int) - 1,
       (now - (cfg.window_seconds : ℚ)) + (cfg.window_seconds : ℚ)⟩,
     st)

/-- Lines 143–146: pop expired timestamps from the front of the deque while
the front is older than the window start. -/
def evictOld (now : ℚ) (cfg : RateLimit) (rs : List ℚ) : List ℚ :=
  rs.dropWhile (fun t => decide (t < now - (cfg.window_seconds : ℚ)))

/-- Lines 133–191: cooldown check, window eviction, burst check, window check. -/
def checkCore (now : ℚ) (cfg : RateLimit) (st : RateLimitState) :
    Decision × RateLimitState :=
  if now < st.cooldown_until then
    (⟨false, "cooldown_active", pyInt (st.cooldown_until - now), 0,
       st.cooldown_until⟩, st)
  else
    let st1 := { st with requests := evictOld now cfg st.requests }
    if 0 < st1.last_request then
      if now - st1.last_request < 1 then
        let st2 := { st1 with burst_count := st1.burst_count + 1 }
        if cfg.burst_limit < st2.burst_count then
          (⟨false, "burst_limit_exceeded", 10, 0, now + 10⟩,
           { st2 with cooldown_until := now + 10 })
        else
          windowCore now cfg st2
      else
        windowCore now cfg { st1 with burst_count := max 0 (st1.burst_count - 1) }
    else
      windowCore now cfg st1

/-- One `check_rate_limit` pass over a single named bucket: read the
configuration and state for `endpoint`, run the core logic, write the state
back. -/
def checkEndpoint (L : Limiter) (now : ℚ) (endpoint : String) :
    Decision × Limiter :=
  let r := checkCore now (getLimit L endpoint) (L.state endpoint)
  (r.1, setState L endpoint r.2)

/-- `check_rate_limit(endpoint)`: for a non-global endpoint the function first
calls itself recursively on `"global"` (lines 127–131) and returns that
decision unchanged whenever the global bucket denies; the recursion depth is
exactly one because the recursive call has `endpoint = "global"`. -/
def checkRateLimit (L : Limiter) (now : ℚ) (endpoint : String) :
    Decision × Limiter :=
  if endpoint = "global" then
    checkEndpoint L now "global"
  else
    let g := checkEndpoint L now "global"
    if g.1.allowed then checkEndpoint g.2 now endpoint else g

/-! ## Rate limiter: `record_request` (lines 193–204) -/

/-- The three in-place updates `record_request` performs on one state. -/
def pushRequest (st : RateLimitState) (now : ℚ) : RateLimitState :=
  { st with requests := st.requests ++ [now],
            last_request := now,
            total_requests := st.total_requests + 1 }

/-- Record into a single bucket. -/
def recordOne (L : Limiter) (now : ℚ) (endpoint : String) : Limiter :=
  setState L endpoint (pushRequest (L.state endpoint) now)

/-- `record_request(endpoint)`: records into the endpoint's state and then,
for a non-global endpoint, recursively into the `"global"` state as well. -/
def recordRequest (L : Limiter) (now : ℚ) (endpoint : String) : Limiter :=
  if endpoint = "global" then
    recordOne L now "global"
  else
    recordOne (recordOne L now endpoint) now "global"

/-- A sequence of `record_request` calls on one endpoint, in timestamp order. -/
def recordMany (L : Limiter) (endpoint : String) (ts : List ℚ) : Limiter :=
  ts.foldl (fun M t => recordRequest M t endpoint) L

/-! ## Rate limiter: the `rate_limited` decorator (lines 258–302) -/

/-- The `RateLimitExceeded` exception (lines 296–302). -/
structure RateLimitExceeded where
  message : String
  retry_after : Int
  endpoint : String
  deriving Repr, DecidableEq

/-- The wrapper installed by the `rate_limited` decorator: check the limit,
raise `RateLimitExceeded` when denied, otherwise record the request and call
the wrapped function (whose value is abstracted as `call`). -/
def rateLimited {α : Type} (L : Limiter) (now : ℚ) (endpoint : String)
    (call : α) : Except RateLimitExceeded (α × Limiter) :=
  let r := checkRateLimit L now endpoint
  if r.1.allowed then
    .ok (call, recordRequest r.2 now endpoint)
  else
    .error ⟨"Rate limit exceeded for " ++ endpoint ++ ": " ++ r.1.reason,
            r.1.retry_after, endpoint⟩

/-- The net effect of the burst-counter bookkeeping (lines 148–165) on
`burst_count` along the two paths that fall through to the window check, and
the identity when `last_request` is unset. -/
def burstAdjust (now : ℚ) (st : RateLimitState) : Int :=
  if 0 < st.last_request then
    if now - st.last_request < 1 then st.burst_count + 1
    else max 0 (st.burst_count - 1)
  else st.burst_count

/-! ## Rate limiter: basic state lemmas -/

theorem setState_state_self (L : Limiter) (e : String) (st : RateLimitState) :
    (setState L e st).state e = st := by
  simp [setState]

theorem setState_state_other (L : Limiter) (e x : String) (st : RateLimitState)
    (h : x ≠ e) : (setState L e st).state x = L.state x := by
  simp [setState, h]

theorem setState_limits (L : Limiter) (e : String) (st : RateLimitState) :
    (setState L e st).limits = L.limits := rfl

theorem getLimit_eq_of_limits {L₁ L₂ : Limiter} (e : String)
    (h : L₁.limits = L₂.limits) : getLimit L₁ e = getLimit L₂ e := by
  simp [getLimit, h]

theorem checkEndpoint_fst (L : Limiter) (now : ℚ) (e : String) :
    (checkEndpoint L now e).1 = (checkCore now (getLimit L e) (L.state e)).1 := rfl

theorem checkEndpoint_state_self (L : Limiter) (now : ℚ) (e : String) :
    (checkEndpoint L now e).2.state e = (checkCore now (getLimit L e) (L.state e)).2 := by
  simp [checkEndpoint, setState_state_self]

theorem checkEndpoint_state_other (L : Limiter) (now : ℚ) (e x : String)
    (h : x ≠ e) : (checkEndpoint L now e).2.state x = L.state x := by
  simp [checkEndpoint, setState_state_other _ _ _ _ h]

theorem checkEndpoint_limits (L : Limiter) (now : ℚ) (e : String) :
    (checkEndpoint L now e).2.limits = L.limits := rfl

theorem recordRequest_state_self (L : Limiter) (now : ℚ) (e : String) :
    (recordRequest L now e).state e = pushRequest (L.state e) now := by
  by_cases h : e = "global"
  · subst h; simp [recordRequest, recordOne, setState]
  · simp [recordRequest, recordOne, setState, h, Ne.symm h]

theorem recordRequest_state_global (L : Limiter) (now : ℚ) (e : String)
    (he : e ≠ "global") :
    (recordRequest L now e).state "global" = pushRequest (L.state "global") now := by
  simp [recordRequest, recordOne, setState, he, Ne.symm he]

theorem recordRequest_state_other (L : Limiter) (now : ℚ) (e x : String)
    (hx : x ≠ e) (hg : x ≠ "global") :
    (recordRequest L now e).state x = L.state x := by
  by_cases h : e = "global"
  · subst h; simp [recordRequest, recordOne, setState, hg]
  · simp [recordRequest, recordOne, setState, h, hx, hg]

theorem recordRequest_limits (L : Limiter) (now : ℚ) (e : String) :
    (recordRequest L now e).limits = L.limits := by
  by_cases h : e = "global" <;> simp [recordRequest, h, recordOne, setState_limits]

theorem recordMany_limits (L : Limiter) (e : String) (ts : List ℚ) :
    (recordMany L e ts).limits = L.limits := by
  induction ts generalizing L with
  | nil => rfl
  | cons t ts ih =>
      show (recordMany (recordRequest L t e) e ts).limits = L.limits
      rw [ih, recordRequest_limits]

theorem recordMany_state_self (L : Limiter) (e : String) (ts : List ℚ) :
    (recordMany L e ts).state e =
      { L.state e with
        requests := (L.state e).requests ++ ts,
        last_request := ts.getLastD (L.state e).last_request,
        total_requests := (L.state e).total_requests + ts.length } := by
  induction ts generalizing L with
  | nil => simp [recordMany]
  | cons t ts ih =>
      show (recordMany (recordRequest L t e) e ts).state e = _
      rw [ih, recordRequest_state_self]
      simp only [pushRequest, List.getLastD_cons, List.append_assoc,
        List.singleton_append, List.length_cons]
      have h : (L.state e).total_requests + 1 + ts.length =
          (L.state e).total_requests + (ts.length + 1) := by omega
      rw [h]

/-! ## Rate limiter: behaviour of the core check along its branches -/

theorem checkCore_cooldown (now : ℚ) (cfg : RateLimit) (st : RateLimitState)
    (h : now < st.cooldown_until) :
    checkCore now cfg st =
      (⟨false, "cooldown_active", pyInt (st.cooldown_until - now), 0,
         st.cooldown_until⟩, st) := by
  simp [checkCore, h]

/-- When no cooldown is active, burst protection does not fire, and the
evicted window still holds at least `max_requests` timestamps, the core check
denies with `rate_limit_exceeded`, arms a cooldown of `cooldown_seconds`, and
counts the block. -/
theorem checkCore_full (now : ℚ) (cfg : RateLimit) (st : RateLimitState)
    (hcd : st.cooldown_until ≤ now)
    (hb : ¬(0 < st.last_request ∧ now - st.last_request < 1 ∧
            cfg.burst_limit < st.burst_count + 1))
    (hfull : cfg.max_requests ≤ ((evictOld now cfg st.requests).length : Int)) :
    (checkCore now cfg st).1 =
      ⟨false, "rate_limit_exceeded", cfg.cooldown_seconds, 0,
        now + (cfg.cooldown_seconds : ℚ)⟩ ∧
    (checkCore now cfg st).2.cooldown_until = now + (cfg.cooldown_seconds : ℚ) ∧
    (checkCore now cfg st).2.total_blocked = st.total_blocked + 1 := by
  rw [checkCore, if_neg (not_lt.mpr hcd)]
  by_cases h1 : 0 < st.last_request
  · by_cases h2 : now - st.last_request < 1
    · have h3 : ¬ cfg.burst_limit < st.burst_count + 1 := fun h => hb ⟨h1, h2, h⟩
      simp only [h1, if_true, h2, h3, if_false]
      simp [windowCore, hfull]
    · simp only [h1, if_true, h2, if_false]
      simp [windowCore, hfull]
  · simp only [h1, if_false]
    simp [windowCore, hfull]

/-- When no cooldown is active, burst protection does not fire, and the
evicted window holds strictly fewer than `max_requests` timestamps, the core
check allows the request; the state it writes back has the evicted request
list and the adjusted burst counter, and everything else unchanged. -/
theorem checkCore_allow (now : ℚ) (cfg : RateLimit) (st : RateLimitState)
    (hcd : st.cooldown_until ≤ now)
    (hb : ¬(0 < st.last_request ∧ now - st.last_request < 1 ∧
            cfg.burst_limit < st.burst_count + 1))
    (hroom : ((evictOld now cfg st.requests).length : Int) < cfg.max_requests) :
    (checkCore now cfg st).1.allowed = true ∧
    (checkCore now cfg st).2.requests = evictOld now cfg st.requests ∧
    (checkCore now cfg st).2.burst_count = burstAdjust now st ∧
    (checkCore now cfg st).2.cooldown_until = st.cooldown_until ∧
    (checkCore now cfg st).2.total_blocked = st.total_blocked := by
  rw [checkCore, if_neg (not_lt.mpr hcd)]
  by_cases h1 : 0 < st.last_request
  · by_cases h2 : now - st.last_request < 1
    · have h3 : ¬ cfg.burst_limit < st.burst_count + 1 := fun h => hb ⟨h1, h2, h⟩
      simp only [h1, if_true, h2, h3, if_false]
      simp [windowCore, not_le.mpr hroom, burstAdjust, h1, h2]
    · simp only [h1, if_true, h2, if_false]
      simp [windowCore, not_le.mpr hroom, burstAdjust, h1, h2]
  · simp only [h1, if_false]
    simp [windowCore, not_le.mpr hroom, burstAdjust, h1]

/-- Every decision the core check can produce is either an allow decision
with reason `"allowed"` or a deny decision with one of the three documented
deny reasons. -/
theorem checkCore_reason_cases (now : ℚ) (cfg : RateLimit) (st : RateLimitState) :
    ((checkCore now cfg st).1.allowed = true ∧
      (checkCore now cfg st).1.reason = "allowed") ∨
    ((checkCore now cfg st).1.allowed = false ∧
      ((checkCore now cfg st).1.reason = "cooldown_active" ∨
       (checkCore now cfg st).1.reason = "burst_limit_exceeded" ∨
       (checkCore now cfg st).1.reason = "rate_limit_exceeded")) := by
  unfold checkCore windowCore
  dsimp only
  split
  · simp
  · split
    · split
      · split
        · simp
        · split <;> simp
      · split <;> simp
    · split <;> simp

/-! ## Rate limiter: `check_rate_limit` at the two-bucket level -/

theorem checkRateLimit_global (L : Limiter) (now : ℚ) :
    checkRateLimit L now "global" = checkEndpoint L now "global" := by
  simp [checkRateLimit]

theorem checkRateLimit_of_global_denied (L : Limiter) (now : ℚ) (e : String)
    (he : e ≠ "global")
    (hg : (checkEndpoint L now "global").1.allowed = false) :
    checkRateLimit L now e = checkEndpoint L now "global" := by
  simp [checkRateLimit, he, hg]

theorem checkRateLimit_of_global_allowed (L : Limiter) (now : ℚ) (e : String)
    (he : e ≠ "global")
    (hg : (checkEndpoint L now "global").1.allowed = true) :
    checkRateLimit L now e = checkEndpoint (checkEndpoint L now "global").2 now e := by
  simp [checkRateLimit, he, hg]

/-- Whenever the global gate does not deny, the decision of
`check_rate_limit(e)` is the core decision computed from `e`'s own
configuration and state. -/
theorem checkRateLimit_fst_core (L : Limiter) (now : ℚ) (e : String)
    (hg : e ≠ "global" → (checkEndpoint L now "global").1.allowed = true) :
    (checkRateLimit L now e).1 = (checkCore now (getLimit L e) (L.state e)).1 := by
  by_cases he : e = "global"
  · subst he; rw [checkRateLimit_global, checkEndpoint_fst]
  · rw [checkRateLimit_of_global_allowed L now e he (hg he), checkEndpoint_fst,
      getLimit_eq_of_limits e (checkEndpoint_limits L now "global"),
      checkEndpoint_state_other L now "global" e (fun h => he h)]

theorem checkRateLimit_snd_state (L : Limiter) (now : ℚ) (e : String)
    (hg : e ≠ "global" → (checkEndpoint L now "global").1.allowed = true) :
    (checkRateLimit L now e).2.state e = (checkCore now (getLimit L e) (L.state e)).2 := by
  by_cases he : e = "global"
  · subst he; rw [checkRateLimit_global, checkEndpoint_state_self]
  · rw [checkRateLimit_of_global_allowed L now e he (hg he), checkEndpoint_state_self,
      getLimit_eq_of_limits e (checkEndpoint_limits L now "global"),
      checkEndpoint_state_other L now "global" e he]

theorem checkRateLimit_reason_cases (L : Limiter) (now : ℚ) (e : String) :
    ((checkRateLimit L now e).1.allowed = true ∧
      (checkRateLimit L now e).1.reason = "allowed") ∨
    ((checkRateLimit L now e).1.allowed = false ∧
      ((checkRateLimit L now e).1.reason = "cooldown_active" ∨
       (checkRateLimit L now e).1.reason = "burst_limit_exceeded" ∨
       (checkRateLimit L now e).1.reason = "rate_limit_exceeded")) := by
  by_cases he : e = "global"
  · subst he; rw [checkRateLimit_global, checkEndpoint_fst]
    exact checkCore_reason_cases now _ _
  · rcases Bool.eq_false_or_eq_true (checkEndpoint L now "global").1.allowed with hg | hg
    · rw [checkRateLimit_of_global_allowed L now e he hg, checkEndpoint_fst]
      exact checkCore_reason_cases now _ _
    · rw [checkRateLimit_of_global_denied L now e he hg, checkEndpoint_fst]
      exact checkCore_reason_cases now _ _

theorem getLastD_mem {l : List ℚ} (h : l ≠ []) (d : ℚ) : l.getLastD d ∈ l := by
  cases l with
  | nil => exact absurd rfl h
  | cons a l =>
      rw [List.getLastD_cons]
      exact List.getLastD_mem_cons l a

theorem evictOld_eq_self (now : ℚ) (cfg : RateLimit) (rs : List ℚ)
    (h : ∀ t ∈ rs, now - (cfg.window_seconds : ℚ) ≤ t) : evictOld now cfg rs = rs := by
  cases rs with
  | nil => rfl
  | cons a l =>
      unfold evictOld
      rw [List.dropWhile_cons]
      simp [not_lt.mpr (h a (List.mem_cons_self a l))]

/-! ## Claim theorems: rate limiter -/

/-- C1: for an endpoint with a positive configured `cooldown_seconds`, no
active cooldown, and a global bucket that is not denying (when the endpoint
is not `"global"` itself): once exactly `max_requests` requests have been
recorded through `record_request`, all inside the current sliding window and
spaced at least one second apart (so burst protection does not trigger), the
next `check_rate_limit` call on that endpoint in the same window returns
`allowed = false` with reason `"rate_limit_exceeded"` and a strictly
positive `retry_after`. -/
theorem window_exhaustion_denies (L : Limiter) (now : ℚ) (e : String)
    (ts : List ℚ)
    (hcool : 0 < (getLimit L e).cooldown_seconds)
    (hnocd : (L.state e).cooldown_until ≤ now)
    (hempty : (L.state e).requests = [])
    (hcount : (ts.length : Int) = (getLimit L e).max_requests)
    (hne : ts ≠ [])
    (hwin : ∀ t ∈ ts, now - ((getLimit L e).window_seconds : ℚ) ≤ t)
    (_hgap : ts.Chain' (fun a b => a + 1 ≤ b))
    (hbefore : ∀ t ∈ ts, t + 1 ≤ now)
    (hglob : e ≠ "global" →
      (checkEndpoint (recordMany L e ts) now "global").1.allowed = true) :
    (checkRateLimit (recordMany L e ts) now e).1.allowed = false ∧
    (checkRateLimit (recordMany L e ts) now e).1.reason = "rate_limit_exceeded" ∧
    0 < (checkRateLimit (recordMany L e ts) now e).1.retry_after := by
  have hlim : getLimit (recordMany L e ts) e = getLimit L e :=
    getLimit_eq_of_limits e (recordMany_limits L e ts)
  have hfst := checkRateLimit_fst_core (recordMany L e ts) now e hglob
  rw [hlim, recordMany_state_self L e ts, hempty] at hfst
  have hcd : (⟨[] ++ ts, (L.state e).burst_count,
      ts.getLastD (L.state e).last_request, (L.state e).cooldown_until,
      (L.state e).total_requests + ts.length, (L.state e).total_blocked⟩ :
      RateLimitState).cooldown_until ≤ now := hnocd
  have hb : ¬(0 < ts.getLastD (L.state e).last_request ∧
      now - ts.getLastD (L.state e).last_request < 1 ∧
      (getLimit L e).burst_limit < (L.state e).burst_count + 1) := by
    intro hc
    have hmem := getLastD_mem hne (L.state e).last_request
    have := hbefore _ hmem
    have := hc.2.1
    linarith
  have hfull : (getLimit L e).max_requests ≤
      ((evictOld now (getLimit L e) ([] ++ ts)).length : Int) := by
    rw [List.nil_append, evictOld_eq_self now (getLimit L e) ts hwin, hcount]
  obtain ⟨hdec, _, _⟩ := checkCore_full now (getLimit L e) _ hcd hb hfull
  rw [hfst, hdec]
  exact ⟨rfl, rfl, hcool⟩

/-- C2: for a non-global endpoint, `check_rate_limit` first evaluates the
global check and, whenever the global bucket denies, returns the global
decision unchanged: the endpoint's own state is left untouched and is not
consulted (replacing it by any other state yields the same decision). -/
theorem global_denial_short_circuits (L : Limiter) (now : ℚ) (e : String)
    (he : e ≠ "global")
    (hg : (checkEndpoint L now "global").1.allowed = false) :
    (checkRateLimit L now e).1 = (checkEndpoint L now "global").1 ∧
    (checkRateLimit L now e).2.state e = L.state e ∧
    (∀ st : RateLimitState,
      (checkRateLimit (setState L e st) now e).1 =
        (checkEndpoint L now "global").1) := by
  refine ⟨?_, ?_, ?_⟩
  · rw [checkRateLimit_of_global_denied L now e he hg]
  · rw [checkRateLimit_of_global_denied L now e he hg,
      checkEndpoint_state_other L now "global" e he]
  · intro st
    have hG : (checkEndpoint (setState L e st) now "global").1 =
        (checkEndpoint L now "global").1 := by
      rw [checkEndpoint_fst, checkEndpoint_fst,
        getLimit_eq_of_limits "global" (setState_limits L e st),
        setState_state_other L e "global" st (Ne.symm he)]
    rw [checkRateLimit_of_global_denied _ now e he (by rw [hG]; exact hg), hG]

/-- C3: `record_request(e)` for a non-global endpoint `e` appends the
timestamp to `e`'s request deque and to the `"global"` request deque, sets
both `last_request` fields and increments both `total_requests` counters
(`pushRequest` is exactly that update), leaving every other endpoint
untouched; `record_request("global")` records exactly once. -/
theorem record_request_shared_ledger (L : Limiter) (now : ℚ) (e : String) :
    (e ≠ "global" →
      (recordRequest L now e).state e = pushRequest (L.state e) now ∧
      (recordRequest L now e).state "global" = pushRequest (L.state "global") now ∧
      ∀ x, x ≠ e → x ≠ "global" → (recordRequest L now e).state x = L.state x) ∧
    ((recordRequest L now "global").state "global" =
        pushRequest (L.state "global") now ∧
      ∀ x, x ≠ "global" → (recordRequest L now "global").state x = L.state x) := by
  constructor
  · intro he
    exact ⟨recordRequest_state_self L now e,
           recordRequest_state_global L now e he,
           fun x hx hg => recordRequest_state_other L now e x hx hg⟩
  · exact ⟨recordRequest_state_self L now "global",
           fun x hg => recordRequest_state_other L now "global" x hg hg⟩

/-- C4: `check_rate_limit` reports violations only through the returned
decision value, whose reason is always one of the three documented deny
reasons (or `"allowed"`); only the decorator-style call site raises, and the
`RateLimitExceeded` it raises carries the decision's `retry_after` and the
endpoint name. -/
theorem decision_reporting_and_decorator {α : Type} (L : Limiter) (now : ℚ)
    (e : String) (call : α) :
    ((checkRateLimit L now e).1.allowed = true →
       (checkRateLimit L now e).1.reason = "allowed" ∧
       rateLimited L now e call =
         Except.ok (call, recordRequest (checkRateLimit L now e).2 now e)) ∧
    ((checkRateLimit L now e).1.allowed = false →
       ((checkRateLimit L now e).1.reason = "cooldown_active" ∨
        (checkRateLimit L now e).1.reason = "burst_limit_exceeded" ∨
        (checkRateLimit L now e).1.reason = "rate_limit_exceeded") ∧
       rateLimited L now e call =
         Except.error ⟨"Rate limit exceeded for " ++ e ++ ": " ++
             (checkRateLimit L now e).1.reason,
           (checkRateLimit L now e).1.retry_after, e⟩) := by
  constructor
  · intro h
    refine ⟨?_, ?_⟩
    · rcases checkRateLimit_reason_cases L now e with ⟨_, hr⟩ | ⟨hfalse, _⟩
      · exact hr
      · rw [h] at hfalse; cases hfalse
    · simp [rateLimited, h]
  · intro h
    refine ⟨?_, ?_⟩
    · rcases checkRateLimit_reason_cases L now e with ⟨htrue, _⟩ | ⟨_, hr⟩
      · rw [h] at htrue; cases htrue
      · exact hr
    · simp [rateLimited, h]

/-- C9: `check_rate_limit` is not read-only.  When the (evicted) sliding
window is full it arms the endpoint's cooldown (`cooldown_until = now +
cooldown_seconds`) and increments `total_blocked`, so a subsequent check on
the same endpoint inside the cooldown period is denied with reason
`"cooldown_active"` even though no request was recorded in between; on the
allow path it also mutates state, writing back the evicted request list and
the adjusted burst counter.  (The hypothesis `hg` says the global gate does
not deny, so the per-endpoint logic is actually reached.) -/
theorem check_rate_limit_mutates (L : Limiter) (now : ℚ) (e : String)
    (hg : e ≠ "global" → (checkEndpoint L now "global").1.allowed = true) :
    ((L.state e).cooldown_until ≤ now →
     ¬(0 < (L.state e).last_request ∧ now - (L.state e).last_request < 1 ∧
        (getLimit L e).burst_limit < (L.state e).burst_count + 1) →
     (getLimit L e).max_requests ≤
        ((evictOld now (getLimit L e) (L.state e).requests).length : Int) →
     (checkRateLimit L now e).1.allowed = false ∧
     (checkRateLimit L now e).1.reason = "rate_limit_exceeded" ∧
     ((checkRateLimit L now e).2.state e).cooldown_until =
        now + ((getLimit L e).cooldown_seconds : ℚ) ∧
     ((checkRateLimit L now e).2.state e).total_blocked =
        (L.state e).total_blocked + 1 ∧
     (∀ now2 : ℚ, now2 < now + ((getLimit L e).cooldown_seconds : ℚ) →
       (e ≠ "global" →
         (checkEndpoint (checkRateLimit L now e).2 now2 "global").1.allowed = true) →
       (checkRateLimit (checkRateLimit L now e).2 now2 e).1.allowed = false ∧
       (checkRateLimit (checkRateLimit L now e).2 now2 e).1.reason =
         "cooldown_active")) ∧
    ((L.state e).cooldown_until ≤ now →
     ¬(0 < (L.state e).last_request ∧ now - (L.state e).last_request < 1 ∧
        (getLimit L e).burst_limit < (L.state e).burst_count + 1) →
     ((evictOld now (getLimit L e) (L.state e).requests).length : Int) <
        (getLimit L e).max_requests →
     (checkRateLimit L now e).1.allowed = true ∧
     ((checkRateLimit L now e).2.state e).requests =
        evictOld now (getLimit L e) (L.state e).requests ∧
     ((checkRateLimit L now e).2.state e).burst_count =
        burstAdjust now (L.state e)) := by
  have hfst := checkRateLimit_fst_core L now e hg
  have hsnd := checkRateLimit_snd_state L now e hg
  constructor
  · intro h1 h2 h3
    obtain ⟨hdec, hcd2, htb⟩ := checkCore_full now (getLimit L e) (L.state e) h1 h2 h3
    refine ⟨by rw [hfst, hdec], by rw [hfst, hdec], by rw [hsnd, hcd2],
      by rw [hsnd, htb], ?_⟩
    intro now2 hlt hg2
    have hfst2 := checkRateLimit_fst_core (checkRateLimit L now e).2 now2 e hg2
    have hcds : ((checkRateLimit L now e).2.state e).cooldown_until =
        now + ((getLimit L e).cooldown_seconds : ℚ) := by rw [hsnd, hcd2]
    have hcool := checkCore_cooldown now2
      (getLimit (checkRateLimit L now e).2 e) ((checkRateLimit L now e).2.state e)
      (by rw [hcds]; exact hlt)
    constructor
    · rw [hfst2, hcool]
    · rw [hfst2, hcool]
  · intro h1 h2 h3
    obtain ⟨ha, hreq, hbc, _, _⟩ :=
      checkCore_allow now (getLimit L e) (L.state e) h1 h2 h3
    exact ⟨by rw [hfst]; exact ha, by rw [hsnd]; exact hreq, by rw [hsnd]; exact hbc⟩

/-! ## Rate limiter: `_load_config` (lines 52–91)

`RateLimiter.__init__` calls `_load_config`; a JSON value loaded from the
config file is modelled by `Json`.  Because the `RateLimit` dataclass performs
no validation of field values, a loaded entry can carry arbitrary JSON values
in its fields; loaded entries are therefore modelled by `RateLimitJ`, whose
fields are raw JSON (with the dataclass field defaults as `Json.num`
defaults).  The result of `_load_config` is `ok` with the final dict, or
`error` with the text of an uncaught Python exception. -/

/-- A parsed JSON value. -/
inductive Json where
  | obj : List (String × Json) → Json
  | arr : List Json → Json
  | str : String → Json
  | num : ℚ → Json
  | bool : Bool → Json
  | null : Json

/-- `RateLimit(**data)` with unvalidated field values. -/
structure RateLimitJ where
  max_requests : Json := .num 60
  window_seconds : Json := .num 60
  burst_limit : Json := .num 10
  cooldown_seconds : Json := .num 300

/-- The keyword parameters accepted by the `RateLimit` dataclass constructor. -/
def rlFieldNames : List String :=
  ["max_requests", "window_seconds", "burst_limit", "cooldown_seconds"]

/-- Dictionary lookup with a default. -/
def jsonLookup (kvs : List (String × Json)) (k : String) (d : Json) : Json :=
  match kvs.lookup k with
  | some v => v
  | none => d

/-- `RateLimit(**data)`: raises `TypeError` when `data` is not a mapping or
mentions a keyword the dataclass does not declare; otherwise builds the
object, filling unmentioned fields from the dataclass defaults and accepting
field values of any type. -/
def rateLimitOfJson : Json → Except String RateLimitJ
  | .obj kvs =>
      if kvs.all (fun kv => decide (kv.1 ∈ rlFieldNames)) then
        .ok ⟨jsonLookup kvs "max_requests" (.num 60),
             jsonLookup kvs "window_seconds" (.num 60),
             jsonLookup kvs "burst_limit" (.num 10),
             jsonLookup kvs "cooldown_seconds" (.num 300)⟩
      else
        .error "TypeError: unexpected keyword argument"
  | _ => .error "TypeError: argument after double-star must be a mapping"

/-- The loop over `config_data.items()` building `loaded_limits`;
the first `TypeError` aborts it. -/
def loadEntries : List (String × Json) → Except String (List (String × RateLimitJ))
  | [] => .ok []
  | (k, v) :: rest =>
      match rateLimitOfJson v with
      | .ok rl =>
          match loadEntries rest with
          | .ok tail => .ok ((k, rl) :: tail)
          | .error e => .error e
      | .error e => .error e

/-- The `default_limits` dict built at the top of `_load_config`. -/
def defaultLimitsJ : List (String × RateLimitJ) :=
  [("anthropic_api", ⟨.num 50, .num 60, .num 5, .num 120⟩),
   ("global", ⟨.num 100, .num 60, .num 15, .num 180⟩),
   ("webhook", ⟨.num 20, .num 60, .num 3, .num 60⟩)]

/-- Python `dict.update`: existing keys keep their position and take the new
value, new keys are appended in iteration order. -/
def updateDict (base upd : List (String × RateLimitJ)) :
    List (String × RateLimitJ) :=
  base.map (fun kv =>
    match upd.lookup kv.1 with
    | some v => (kv.1, v)
    | none => kv) ++
  upd.filter (fun kv => (base.lookup kv.1).isNone)

/-- `_load_config`.  The argument describes the file system and parser
outcome: `none` when the config file does not exist; `some (.error m)` when
`json.load` raises `JSONDecodeError` (invalid JSON); `some (.ok v)` when the
file parses to the JSON value `v`.  The `except` clause catches only
`JSONDecodeError` and `TypeError`, so `config_data.items()` on a non-object
top-level value raises an uncaught `AttributeError`. -/
def loadConfig (file : Option (Except String Json)) :
    Except String (List (String × RateLimitJ)) :=
  match file with
  | none => .ok defaultLimitsJ
  | some (.error _) => .ok defaultLimitsJ
  | some (.ok (.obj kvs)) =>
      match loadEntries kvs with
      | .ok loaded => .ok (updateDict defaultLimitsJ loaded)
      | .error _ => .ok defaultLimitsJ
  | some (.ok _) => .error "AttributeError: object has no attribute items"

/-- Whether a JSON value is an object (a Python `dict` after `json.load`). -/
def jsonIsObj : Json → Bool
  | .obj _ => true
  | _ => false

/-- C7 counterexample: the claim fails on the code in two ways.  A config
file containing the valid JSON document `[]` (top level not an object) makes
`_load_config` raise an uncaught `AttributeError`, so constructing a
`RateLimiter` does abort; and on a caught error (invalid JSON) the rule set
degrades to the built-in *default* rule set, which has three entries, not to
an empty one. -/
theorem load_config_not_total :
    loadConfig (some (.ok (.arr []))) =
      .error "AttributeError: object has no attribute items" ∧
    loadConfig (some (.error "Expecting value")) = .ok defaultLimitsJ ∧
    defaultLimitsJ.length = 3 :=
  ⟨rfl, rfl, rfl⟩

/-- C7 amended: construction survives a missing config file, invalid JSON,
and wrong-shaped entries inside a top-level JSON object (the caught
`JSONDecodeError`/`TypeError` paths degrade, with a logged warning, to the
built-in non-empty default rule set); but a config file whose top-level JSON
value is not an object raises an uncaught `AttributeError` and aborts
construction. -/
theorem load_config_degrades_on_caught_errors :
    loadConfig none = .ok defaultLimitsJ ∧
    (∀ m, loadConfig (some (.error m)) = .ok defaultLimitsJ) ∧
    (∀ kvs, (loadConfig (some (.ok (.obj kvs)))).isOk = true) ∧
    (∀ v : Json, jsonIsObj v = false →
      loadConfig (some (.ok v)) =
        .error "AttributeError: object has no attribute items") := by
  refine ⟨rfl, fun m => rfl, ?_, ?_⟩
  · intro kvs
    cases h : loadEntries kvs <;> simp [loadConfig, h, Except.isOk, Except.toBool]
  · intro v hv
    cases v <;> simp_all [loadConfig, jsonIsObj]

/-- Closed instance of the amended C7 theorem at concrete inputs. -/
theorem load_config_degrades_witness :
    loadConfig (some (.error "Expecting value: line 1 column 1")) =
      .ok defaultLimitsJ ∧
    (loadConfig (some (.ok (.obj
        [("webhook", .obj [("max_requests", .num 5)])])))).isOk = true ∧
    loadConfig (some (.ok (.str "x"))) =
      .error "AttributeError: object has no attribute items" :=
  ⟨load_config_degrades_on_caught_errors.2.1 _,
   load_config_degrades_on_caught_errors.2.2.1 _,
   load_config_degrades_on_caught_errors.2.2.2 _ rfl⟩

/-! ## Claude integration (`claude_integration.py`)

`ClaudeCodeAgent.send_message` / `_single_response` / `_stream_response`,
modelled for an agent whose conversation context already exists (lines
107–108 create one if it does not; that step only affects which session id
appears in the results).  Python wall-clock metadata timestamps are omitted;
the nested `usage`/`metadata` sub-dicts are flattened into optional fields of
`SendResult`.  The LLM backend (`self.client.messages.create`) is an external
collaborator and is abstracted as a function of the request; its outcome is
an `AsyncOutcome`: an awaited coroutine either completes with a value or an
exception, or never completes at all.  `_single_response` contains no
`asyncio.wait_for` or any other timeout around the `messages.create` await,
so a never-completing call propagates as `hangs`. -/

/-- Outcome of awaiting an async call: it completes with `α`, or it never
completes. -/
inductive AsyncOutcome (α : Type) where
  | done : α → AsyncOutcome α
  | hangs : AsyncOutcome α
  deriving Repr, DecidableEq

/-- The slice of `AgentConfig` that `send_message` consults. -/
structure AgentCfg where
  system_prompt : String
  model : String
  max_tokens : Int
  temperature : ℚ

/-- The response object returned by `messages.create`: the text of its
content blocks, the model name, and optional usage counts. -/
structure ApiUsage where
  input_tokens : Int
  output_tokens : Int

structure ApiResponse where
  content : List String
  model : String
  usage : Option ApiUsage

/-- `ConversationContext`, reduced to the fields `send_message` touches. -/
structure ConvContext where
  session_id : String
  messages : List (String × String)

/-- The abstracted LLM backend: a function of the effective configuration
(the system prompt as modified for JSON output) and the message list; it
completes with a response, completes by raising (exception text), or never
completes. -/
def Backend : Type :=
  AgentCfg → List (String × String) → AsyncOutcome (Except String ApiResponse)

/-- The result dictionary of `send_message`; fields that a given control path
does not put into the Python dict are `none`. -/
structure SendResult where
  success : Bool
  content : Option String := none
  model : Option String := none
  input_tokens : Option Int := none
  output_tokens : Option Int := none
  parsed_json : Option Json := none
  json_parse_error : Option String := none
  request_count : Option Nat := none
  error : Option String := none
  session_id : String

/-- `_single_response` (lines 134–186): build the effective system prompt,
await the backend, append the assistant message to the context, assemble the
result dict, and parse JSON output on request (`jp` models `json.loads`).
An exception from the backend call propagates to the caller
(`send_message`); a hanging backend call hangs. -/
def singleResponse (cfg : AgentCfg) (ctx : ConvContext) (requestCount : Nat)
    (jp : String → Except String Json) (backend : Backend)
    (output_format : String) :
    AsyncOutcome (Except String (SendResult × ConvContext)) :=
  let sys := if output_format = "json" then
      cfg.system_prompt ++ "\n\nIMPORTANT: Respond with valid JSON only."
    else cfg.system_prompt
  match backend { cfg with system_prompt := sys } ctx.messages with
  | .hangs => .hangs
  | .done (.error e) => .done (.error e)
  | .done (.ok resp) =>
      let text := match resp.content with
        | [] => ""
        | t :: _ => t
      let ctx1 := { ctx with messages := ctx.messages ++ [("assistant", text)] }
      let base : SendResult :=
        { success := true,
          content := some text,
          model := some resp.model,
          input_tokens := some (match resp.usage with
            | some u => u.input_tokens
            | none => 0),
          output_tokens := some (match resp.usage with
            | some u => u.output_tokens
            | none => 0),
          request_count := some requestCount,
          session_id := ctx.session_id }
      let result := if output_format = "json" then
          match jp text with
          | .ok j => { base with parsed_json := some j }
          | .error m => { base with json_parse_error := some m }
        else base
      .done (.ok (result, ctx1))

/-- The exception text produced by `await self._stream_response(...)`:
`_stream_response` is an async generator function (its body contains
`yield`), so calling it returns an async generator object, and awaiting that
object raises `TypeError` before any backend call is made or any chunk is
produced.  (CPython words the message "object async_generator can't be used
in 'await' expression"; the punctuation is simplified here.) -/
def streamTypeError : String :=
  "TypeError: object async_generator can not be used in await expression"

/-- `send_message` (lines 101–132): run `_handle_rate_limiting` (which only
sleeps and bumps the request counter, lines 237–250), append the user
message, then inside `try`: delegate to `_stream_response` or
`_single_response`; any exception raised while producing the response is
converted into `{"success": False, "error": str(e), "session_id": ...}`. -/
def sendMessage (cfg : AgentCfg) (ctx : ConvContext) (requestCount : Nat)
    (jp : String → Except String Json) (backend : Backend) (content : String)
    (output_format : String) (stream : Bool) :
    AsyncOutcome (SendResult × ConvContext) :=
  let rc := requestCount + 1
  let ctx1 := { ctx with messages := ctx.messages ++ [("user", content)] }
  if stream then
    .done ({ success := false, error := some streamTypeError,
             session_id := ctx1.session_id }, ctx1)
  else
    match singleResponse cfg ctx1 rc jp backend output_format with
    | .hangs => .hangs
    | .done (.error e) =>
        .done ({ success := false, error := some e,
                 session_id := ctx1.session_id }, ctx1)
    | .done (.ok r) => .done r

/-! ## Claim theorems: claude integration -/

/-- C5: any exception raised while producing a response inside
`send_message` (here: raised by the awaited backend call, from which every
exception of the non-streaming path originates in the model) is converted
into `{"success": False, "error": str(e), "session_id": ...}`; the caller
observes a result dictionary, never the exception. -/
theorem send_message_catches_exceptions (cfg : AgentCfg) (ctx : ConvContext)
    (rc : Nat) (jp : String → Except String Json) (backend : Backend)
    (content output_format : String) (e : String)
    (hexn : backend
        { cfg with system_prompt := if output_format = "json" then
            cfg.system_prompt ++ "\n\nIMPORTANT: Respond with valid JSON only."
          else cfg.system_prompt }
        (ctx.messages ++ [("user", content)]) = .done (.error e)) :
    sendMessage cfg ctx rc jp backend content output_format false =
      .done ({ success := false, error := some e,
               session_id := ctx.session_id },
             { ctx with messages := ctx.messages ++ [("user", content)] }) := by
  simp [sendMessage, singleResponse, hexn]

def cfg0 : AgentCfg :=
  ⟨"You are a helpful agent", "claude-3-5-sonnet-20241022", 4096, 1/10⟩

def ctx0 : ConvContext := ⟨"session-0", []⟩

def jp0 : String → Except String Json := fun _ => .error "Expecting value"

/-- A backend whose awaited call never completes. -/
def hangingBackend : Backend := fun _ _ => .hangs

/-- A backend whose awaited call raises. -/
def raisingBackend : Backend := fun _ _ => .done (.error "API connection error")

/-- Closed instance of the C5 theorem at a concrete raising backend. -/
theorem send_message_catches_witness :
    sendMessage cfg0 ctx0 0 jp0 raisingBackend "hi" "text" false =
      .done ({ success := false, error := some "API connection error",
               session_id := "session-0" },
             ⟨"session-0", [("user", "hi")]⟩) :=
  send_message_catches_exceptions cfg0 ctx0 0 jp0 raisingBackend "hi" "text"
    "API connection error" rfl

/-- C6 counterexample: the `messages.create` call in `_single_response` is
awaited with no timeout of any kind (`claude_integration.py` contains no
`asyncio.wait_for`), so a backend call that never completes makes
`send_message` itself never complete — it is *not* converted into an
error-status result, contradicting the claim that every backend call runs
under a hard wall-clock deadline. -/
theorem backend_call_has_no_timeout :
    sendMessage cfg0 ctx0 0 jp0 hangingBackend "hello" "text" false =
      AsyncOutcome.hangs := rfl

/-- C6 amended: the backend call is awaited without any timeout: an
exception from the call is converted into an error-status result (see the C5
theorem), but a call that never completes blocks `send_message` forever
instead of being converted into an error result. -/
theorem backend_hang_propagates (cfg : AgentCfg) (ctx : ConvContext)
    (rc : Nat) (jp : String → Except String Json) (backend : Backend)
    (content output_format : String)
    (hhang : backend
        { cfg with system_prompt := if output_format = "json" then
            cfg.system_prompt ++ "\n\nIMPORTANT: Respond with valid JSON only."
          else cfg.system_prompt }
        (ctx.messages ++ [("user", content)]) = .hangs) :
    sendMessage cfg ctx rc jp backend content output_format false =
      AsyncOutcome.hangs := by
  simp [sendMessage, singleResponse, hhang]

/-- Closed instance of the amended C6 theorem at a concrete hanging backend. -/
theorem backend_hang_witness :
    sendMessage cfg0 ctx0 0 jp0 hangingBackend "hi" "json" false =
      AsyncOutcome.hangs :=
  backend_hang_propagates cfg0 ctx0 0 jp0 hangingBackend "hi" "json" rfl

/-- C10: `send_message` with `stream=True` always returns the error
dictionary produced by catching the `TypeError` from awaiting the async
generator, with the session id and the user message appended; nothing is
streamed and the backend is never consulted (the result is the same for
every backend). -/
theorem stream_true_returns_error_dict (cfg : AgentCfg) (ctx : ConvContext)
    (rc : Nat) (jp : String → Except String Json) (backend : Backend)
    (content output_format : String) :
    sendMessage cfg ctx rc jp backend content output_format true =
      .done ({ success := false, error := some streamTypeError,
               session_id := ctx.session_id },
             { ctx with messages := ctx.messages ++ [("user", content)] }) ∧
    (∀ b₂ : Backend,
      sendMessage cfg ctx rc jp backend content output_format true =
        sendMessage cfg ctx rc jp b₂ content output_format true) :=
  ⟨rfl, fun _ => rfl⟩

/-! ## Activation aggregator

Modelled from the spec: `CrossAgentActivationEngine.analyze_activation_needs`
lives in `.claude/activation_engine.py`, which is not among the sources (only
its tests and callers are), so the aggregator is built from the
specification's words (spec §4.2 "Activation Aggregator", §3
"ActivationDecision"): group candidates by agent id; per agent
`final = max(scores)*0.7 + mean(scores)*0.3` plus a bounded
historical-success boost `min(successes*0.02, 0.2)`; concatenate the distinct
reason strings; drop agents below the activation threshold (default 0.7);
sort by final score descending with ties broken by first-seen order; truncate
to max-concurrent-agents (default 3). -/

/-- An activation candidate produced by the signal scorers:
`(agent_id, raw_score, reason)`. -/
abbrev Cand : Type := String × ℚ × String

/-- Deduplicate, keeping the first occurrence of each element. -/
def dedupKeepFirst {α : Type} [DecidableEq α] : List α → List α
  | [] => []
  | a :: rest => a :: (dedupKeepFirst rest).filter (fun b => decide (b ≠ a))

/-- Agent ids in first-seen order. -/
def firstSeenIds (cs : List Cand) : List String :=
  dedupKeepFirst (cs.map (fun c => c.1))

/-- The raw scores a given agent collected across all signals. -/
def candScores (cs : List Cand) (a : String) : List ℚ :=
  (cs.filter (fun c => decide (c.1 = a))).map (fun c => c.2.1)

/-- The reasons a given agent collected across all signals. -/
def candReasons (cs : List Cand) (a : String) : List String :=
  (cs.filter (fun c => decide (c.1 = a))).map (fun c => c.2.2)

/-- `max(scores)` (0 for an empty list, which never occurs for grouped ids). -/
def qMax : List ℚ → ℚ
  | [] => 0
  | t :: ts => ts.foldl max t

/-- `mean(scores)` (division by zero yields 0 in Lean, same guard). -/
def qMean (l : List ℚ) : ℚ := l.sum / (l.length : ℚ)

/-- Bounded historical-success boost: `min(successes * 0.02, 0.2)`. -/
def successBoost (n : Nat) : ℚ := min ((n : ℚ) * (1/50)) (1/5)

/-- `final = max(scores)*0.7 + mean(scores)*0.3 + boost`. -/
def finalScore (cs : List Cand) (successes : String → Nat) (a : String) : ℚ :=
  qMax (candScores cs a) * (7/10) + qMean (candScores cs a) * (3/10) +
    successBoost (successes a)

/-- Distinct reason strings, joined for human display. -/
def mergedReasons (cs : List Cand) (a : String) : String :=
  String.intercalate ", " (dedupKeepFirst (candReasons cs a))

/-- Global activation settings (spec defaults: threshold 0.7, cap 3). -/
structure ActivationSettings where
  activation_threshold : ℚ := 7/10
  max_concurrent_agents : Nat := 3

/-- One aggregated agent row: `(agent_id, final_score, merged_reasons)`. -/
def scoredAgents (successes : String → Nat) (cs : List Cand) :
    List (String × ℚ × String) :=
  (firstSeenIds cs).map (fun a =>
    (a, finalScore cs successes a, mergedReasons cs a))

/-- Ranking order on rows paired with their first-seen index: higher final
score first, ties broken by smaller first-seen index. -/
def rankRel : Nat × String × ℚ × String → Nat × String × ℚ × String → Prop :=
  fun p q => q.2.2.1 < p.2.2.1 ∨ (p.2.2.1 = q.2.2.1 ∧ p.1 ≤ q.1)

instance : DecidableRel rankRel := fun p q => by
  unfold rankRel
  infer_instance

instance : IsTotal (Nat × String × ℚ × String) rankRel := by
  constructor
  intro p q
  rcases lt_trichotomy p.2.2.1 q.2.2.1 with h | h | h
  · exact Or.inr (Or.inl h)
  · rcases Nat.le_total p.1 q.1 with hle | hle
    · exact Or.inl (Or.inr ⟨h, hle⟩)
    · exact Or.inr (Or.inr ⟨h.symm, hle⟩)
  · exact Or.inl (Or.inl h)

instance : IsTrans (Nat × String × ℚ × String) rankRel := by
  constructor
  intro p q r hpq hqr
  rcases hpq with h1 | ⟨e1, i1⟩ <;> rcases hqr with h2 | ⟨e2, i2⟩
  · exact Or.inl (lt_trans h2 h1)
  · exact Or.inl (e2 ▸ h1)
  · exact Or.inl (by rw [e1]; exact h2)
  · exact Or.inr ⟨e1.trans e2, le_trans i1 i2⟩

/-- `analyze_activation_needs`: aggregate, filter by threshold, rank, cap. -/
def analyzeActivationNeeds (settings : ActivationSettings)
    (successes : String → Nat) (cs : List Cand) : List (String × ℚ × String) :=
  let kept := (scoredAgents successes cs).enum.filter
    (fun p => decide (settings.activation_threshold ≤ p.2.2.1))
  ((List.insertionSort rankRel kept).take settings.max_concurrent_agents).map
    (fun p => p.2)

theorem dedupKeepFirst_nodup {α : Type} [DecidableEq α] (l : List α) :
    (dedupKeepFirst l).Nodup := by
  induction l with
  | nil => simp [dedupKeepFirst]
  | cons a rest ih =>
      rw [dedupKeepFirst, List.nodup_cons]
      constructor
      · intro hmem
        have h := List.of_mem_filter hmem
        simp at h
      · exact ih.filter _

/-- Every entry surviving the threshold filter carries its first-seen index:
the index is in range and the agent id is the one at that index of
`firstSeenIds`. -/
theorem kept_entry_indexed (settings : ActivationSettings)
    (successes : String → Nat) (cs : List Cand)
    (p : Nat × String × ℚ × String)
    (hp : p ∈ (scoredAgents successes cs).enum.filter
      (fun q => decide (settings.activation_threshold ≤ q.2.2.1))) :
    ∃ h : p.1 < (firstSeenIds cs).length,
      p.2.1 = (firstSeenIds cs).get ⟨p.1, h⟩ := by
  have hmem : p ∈ (scoredAgents successes cs).enum :=
    (List.filter_sublist _).subset hp
  rw [List.mem_iff_getElem] at hmem
  obtain ⟨i, hi, hp2⟩ := hmem
  have hp3 : (scoredAgents successes cs).enum[i]? = some p := by
    rw [List.getElem?_eq_getElem hi, hp2]
  rw [List.enum_eq_enumFrom, List.getElem?_enumFrom] at hp3
  obtain ⟨row, hrow, hpair⟩ := Option.map_eq_some'.mp hp3
  have hlen : i < (scoredAgents successes cs).length :=
    List.getElem?_eq_some.mp hrow |>.1
  have hlen2 : i < (firstSeenIds cs).length := by
    simpa [scoredAgents, List.length_map] using hlen
  have hfst : p.1 = i := by rw [← hpair]; simp
  have hsnd : p.2 = row := by rw [← hpair]
  have hrow2 : row = (scoredAgents successes cs).get ⟨i, hlen⟩ := by
    have := List.getElem?_eq_some.mp hrow
    rw [List.get_eq_getElem]
    exact this.2.symm
  refine ⟨hfst ▸ hlen2, ?_⟩
  rw [hsnd, hrow2]
  simp only [scoredAgents, List.get_eq_getElem, List.getElem_map]
  congr 1
  omega

/-- The first-seen indices of the threshold survivors are pairwise distinct. -/
theorem kept_map_fst_nodup (settings : ActivationSettings)
    (successes : String → Nat) (cs : List Cand) :
    (((scoredAgents successes cs).enum.filter
      (fun q => decide (settings.activation_threshold ≤ q.2.2.1))).map
        Prod.fst).Nodup := by
  have henum : ((scoredAgents successes cs).enum.map Prod.fst).Nodup :=
    List.nodup_enum_map_fst _
  exact henum.sublist ((List.filter_sublist _).map Prod.fst)

/-- C8: every activation decision returned by `analyze_activation_needs`
satisfies the spec invariants: at most `max_concurrent_agents` rows, every
returned score at least `activation_threshold`, scores descending with ties
broken by first-seen order (strictly descending on distinct scores), and no
agent id listed twice. -/
theorem activation_decision_invariants (settings : ActivationSettings)
    (successes : String → Nat) (cs : List Cand) :
    (analyzeActivationNeeds settings successes cs).length ≤
      settings.max_concurrent_agents ∧
    (∀ x ∈ analyzeActivationNeeds settings successes cs,
      settings.activation_threshold ≤ x.2.1) ∧
    List.Pairwise (fun x y : String × ℚ × String =>
        y.2.1 < x.2.1 ∨ (x.2.1 = y.2.1 ∧
          (firstSeenIds cs).indexOf x.1 < (firstSeenIds cs).indexOf y.1))
      (analyzeActivationNeeds settings successes cs) ∧
    ((analyzeActivationNeeds settings successes cs).map
      (fun x => x.1)).Nodup := by
  classical
  set kept := (scoredAgents successes cs).enum.filter
    (fun q => decide (settings.activation_threshold ≤ q.2.2.1)) with hkept
  set sorted := List.insertionSort rankRel kept with hsorted
  set taken := sorted.take settings.max_concurrent_agents with htaken
  have hidsnodup : (firstSeenIds cs).Nodup := dedupKeepFirst_nodup _
  have htakensub : ∀ p ∈ taken, p ∈ kept := by
    intro p hp
    have hp2 : p ∈ sorted := (List.take_sublist _ _).subset hp
    exact (List.mem_insertionSort rankRel).mp hp2
  -- indices in `taken` are pairwise distinct
  have hfstnodup : (taken.map Prod.fst).Nodup := by
    have h1 : (kept.map Prod.fst).Nodup := kept_map_fst_nodup settings successes cs
    have h2 : (sorted.map Prod.fst).Nodup :=
      ((List.perm_insertionSort rankRel kept).map Prod.fst).nodup_iff.mpr h1
    exact h2.sublist ((List.take_sublist _ _).map Prod.fst)
  have hfstpair : List.Pairwise (fun p q : Nat × String × ℚ × String =>
      p.1 ≠ q.1) taken := List.pairwise_map.mp hfstnodup
  have hrankpair : List.Pairwise rankRel taken :=
    (List.sorted_insertionSort rankRel kept).sublist (List.take_sublist _ _)
  have hcombined := hrankpair.and hfstpair
  refine ⟨?_, ?_, ?_, ?_⟩
  · -- length bound
    show (taken.map (fun p => p.2)).length ≤ settings.max_concurrent_agents
    rw [List.length_map, htaken, List.length_take]
    exact min_le_left _ _
  · -- threshold bound
    intro x hx
    obtain ⟨p, hp, hpx⟩ := List.mem_map.mp hx
    have hpk := htakensub p hp
    have := List.of_mem_filter hpk
    rw [← hpx]
    exact of_decide_eq_true this
  · -- ranking invariant
    show List.Pairwise _ (taken.map (fun p => p.2))
    rw [List.pairwise_map]
    refine hcombined.imp_of_mem ?_
    intro p q hp hq hpq
    obtain ⟨hrank, hne⟩ := hpq
    rcases hrank with hlt | ⟨heq, hle⟩
    · exact Or.inl hlt
    · refine Or.inr ⟨heq, ?_⟩
      obtain ⟨hip, hgetp⟩ := kept_entry_indexed settings successes cs p (htakensub p hp)
      obtain ⟨hiq, hgetq⟩ := kept_entry_indexed settings successes cs q (htakensub q hq)
      rw [hgetp, hgetq, List.get_eq_getElem, List.get_eq_getElem,
        List.indexOf_getElem hidsnodup, List.indexOf_getElem hidsnodup]
      exact lt_of_le_of_ne hle hne
  · -- no duplicate agent ids
    show (((taken.map (fun p => p.2)).map (fun x => x.1))).Nodup
    rw [List.map_map]
    show List.Pairwise (fun a b : String => a ≠ b) _
    rw [List.pairwise_map]
    refine hcombined.imp_of_mem ?_
    intro p q hp hq hpq
    obtain ⟨_, hne⟩ := hpq
    obtain ⟨hip, hgetp⟩ := kept_entry_indexed settings successes cs p (htakensub p hp)
    obtain ⟨hiq, hgetq⟩ := kept_entry_indexed settings successes cs q (htakensub q hq)
    intro hcontra
    apply hne
    simp only [Function.comp] at hcontra
    rw [hgetp, hgetq] at hcontra
    have := List.nodup_iff_injective_get.mp hidsnodup hcontra
    exact congrArg Fin.val this

/-! ## Concrete instances

Closed instances of the theorems above, evaluated on concrete limiters,
agents and candidate lists.  `Rat.add`, `Rat.sub`, `Rat.mul` and `Rat.inv`
are irreducible by default, which blocks kernel evaluation of concrete
rational arithmetic; they are made semireducible locally so `decide` can
evaluate the embedded code on concrete inputs. -/

/-- A limiter with an `"api"` endpoint allowing 2 requests per 60 s window
(cooldown 120 s) and the default-like global bucket; all states fresh. -/
def L0 : Limiter :=
  ⟨fun e => if e = "api" then some ⟨2, 60, 5, 120⟩
    else if e = "global" then some ⟨100, 60, 15, 180⟩ else none,
   fun _ => {}⟩

/-- A limiter whose global bucket is in an active cooldown until t = 100. -/
def L1 : Limiter :=
  ⟨fun e => if e = "global" then some ⟨100, 60, 15, 180⟩ else none,
   fun e => if e = "global" then { cooldown_until := 100 } else {}⟩

/-- A limiter whose `"api"` window already holds 2 timestamps. -/
def L2 : Limiter :=
  ⟨L0.limits,
   fun e => if e = "api" then { requests := [10, 12], last_request := 12 }
     else {}⟩

/-- Candidates as in the spec scenario: convergent FastMCP evidence plus a
weak protocol signal. -/
def demoCands : List Cand :=
  [("fastmcp-specialist", 9/10, "content signal"),
   ("protocol-expert", 3/10, "path signal"),
   ("fastmcp-specialist", 8/10, "task signal")]

section

set_option allowUnsafeReducibility true
attribute [local semireducible] Rat.add Rat.sub Rat.mul Rat.inv

/-- Closed instance of the C1 theorem: the third request on `"api"` within
the window is denied. -/
theorem window_exhaustion_witness :
    (checkRateLimit (recordMany L0 "api" [10, 12]) 20 "api").1.allowed = false ∧
    (checkRateLimit (recordMany L0 "api" [10, 12]) 20 "api").1.reason =
      "rate_limit_exceeded" ∧
    0 < (checkRateLimit (recordMany L0 "api" [10, 12]) 20 "api").1.retry_after :=
  window_exhaustion_denies L0 20 "api" [10, 12] (by decide) (by decide) rfl
    (by decide) (by decide) (by decide)
    (List.Chain.cons (by decide) List.Chain.nil) (by decide)
    (fun _ => by decide)

/-- Closed instance of the C2 theorem: with the global bucket cooling down,
the `"api"` check returns the global decision and leaves `"api"` untouched. -/
theorem global_denial_witness :
    (checkRateLimit L1 50 "api").1 = (checkEndpoint L1 50 "global").1 ∧
    (checkRateLimit L1 50 "api").2.state "api" = L1.state "api" ∧
    (∀ st : RateLimitState,
      (checkRateLimit (setState L1 "api" st) 50 "api").1 =
        (checkEndpoint L1 50 "global").1) :=
  global_denial_short_circuits L1 50 "api" (by decide) (by decide)

/-- Closed instance of the C3 theorem: one `record_request("api")` call
records into both ledgers. -/
theorem record_request_witness :
    (recordRequest L0 10 "api").state "api" = pushRequest (L0.state "api") 10 ∧
    (recordRequest L0 10 "api").state "global" =
      pushRequest (L0.state "global") 10 :=
  ⟨((record_request_shared_ledger L0 10 "api").1 (by decide)).1,
   ((record_request_shared_ledger L0 10 "api").1 (by decide)).2.1⟩

/-- Closed instance of the C4 theorem: a denied check makes the decorator
raise a `RateLimitExceeded` carrying the decision's data. -/
theorem decision_reporting_witness :
    ((checkRateLimit L1 50 "api").1.reason = "cooldown_active" ∨
     (checkRateLimit L1 50 "api").1.reason = "burst_limit_exceeded" ∨
     (checkRateLimit L1 50 "api").1.reason = "rate_limit_exceeded") ∧
    rateLimited L1 50 "api" (0 : Nat) =
      Except.error ⟨"Rate limit exceeded for " ++ "api" ++ ": " ++
          (checkRateLimit L1 50 "api").1.reason,
        (checkRateLimit L1 50 "api").1.retry_after, "api"⟩ :=
  (decision_reporting_and_decorator L1 50 "api" (0 : Nat)).2 (by decide)

/-- Closed instance of the C9 theorem: a check that finds the `"api"` window
full arms the cooldown, and a later check at t = 30 is denied with
`"cooldown_active"` although nothing was recorded in between. -/
theorem check_mutates_witness :
    (checkRateLimit L2 20 "api").1.allowed = false ∧
    (checkRateLimit L2 20 "api").1.reason = "rate_limit_exceeded" ∧
    ((checkRateLimit L2 20 "api").2.state "api").cooldown_until =
      20 + ((getLimit L2 "api").cooldown_seconds : ℚ) ∧
    (checkRateLimit (checkRateLimit L2 20 "api").2 30 "api").1.reason =
      "cooldown_active" := by
  have h := (check_rate_limit_mutates L2 20 "api" (fun _ => by decide)).1
    (by decide) (by decide) (by decide)
  exact ⟨h.1, h.2.1, h.2.2.1,
    (h.2.2.2.2 30 (by decide) (fun _ => by decide)).2⟩

end

/-- Closed instance of the C8 theorem at the spec's FastMCP scenario. -/
theorem activation_invariants_witness :
    (analyzeActivationNeeds {} (fun _ => 0) demoCands).length ≤ 3 ∧
    ((analyzeActivationNeeds {} (fun _ => 0) demoCands).map
      (fun x => x.1)).Nodup :=
  ⟨(activation_decision_invariants {} (fun _ => 0) demoCands).1,
   (activation_decision_invariants {} (fun _ => 0) demoCands).2.2.2⟩
